import Mathlib

/-!
Shallow embedding of the `backblaze` Python client library (therumbler/backblaze)
and proofs about its multipart-upload sequencing, authorization flow and
bucket-management operations.

Source files embedded:
  * `backblaze/bucket/awaiting/part.py` — the `AwaitingParts` operations
    (`list`, `copy`, `data`, `finish`), a linear state accumulator of a part
    counter and a rolling SHA-1 list driving the B2 multipart-upload calls.
  * `backblaze/__init__.py` — the `Awaiting` and `Blocking` clients
    (`create_bucket`, `buckets`, `bucket`, `authorize` and the background
    refresh task).

HTTP transport, JSON serialisation and SHA-1 hashing are external collaborators
of the library; they are modelled as parameters (an abstract hex-digest
function) and as explicit request/response values.
-/

namespace Backblaze

/-- JSON values, the shape of request and response bodies exchanged with the
B2 REST API. -/
inductive JVal where
  | jstr : String → JVal
  | jnum : Nat → JVal
  | jarr : List JVal → JVal
  | jobj : List (String × JVal) → JVal

/-- Field lookup in a JSON object, the model of Python's `d[key]` on a parsed
response: `some` the first binding of the key, `none` when the value is not an
object or the key is absent (a Python `KeyError`/`TypeError`). -/
def jLookup : JVal → String → Option JVal
  | JVal.jobj fields, k => (fields.find? (fun p => p.1 == k)).map Prod.snd
  | _, _ => none

/-- Raw bytes handed to an upload call (`bytes` in Python). -/
abbrev ByteData := List Nat

/-- One HTTP POST as issued through the library's `_post` helper: the target
url, extra headers, an optional JSON body, an optional raw body, and whether
the helper is asked to include the account id. -/
structure Request where
  url : String
  headers : List (String × String)
  json : Option JVal
  body : Option ByteData
  include_account : Bool

/-- Value of a request header, first binding wins. -/
def headerVal (r : Request) (k : String) : Option String :=
  (r.headers.find? (fun p => p.1 == k)).map Prod.snd

/-- Field of a request's JSON body. -/
def jsonField (r : Request) (k : String) : Option JVal :=
  r.json.bind (fun j => jLookup j k)

/-- Modelled from the spec: the route table (`routes.py`, not under `src/`)
after `_format_routes`; each field is the url of one B2 endpoint. -/
structure Routes where
  bucket_create : String
  bucket_list : String
  file_list_parts : String
  file_copy_part : String
  file_finish_large : String

/-- Modelled from the spec: `models/file.py` (not under `src/`) wraps the raw
JSON of an uploaded part. -/
structure PartModel where
  raw : JVal

/-- Modelled from the spec: `models/file.py` (not under `src/`) wraps the raw
JSON of a completed file record. -/
structure FileModel where
  raw : JVal

/-- Modelled from the spec: `models/file.py` (not under `src/`); the result of
the file's `upload_url` operation: the url to upload to and its authorization
token. -/
structure UploadUrlModel where
  upload_url : String
  authorization_token : String

/-- The mutable state of an `AwaitingParts` object: the part counter
`part_number` and the rolling hash list `sha1s`. -/
structure PartsState where
  part_number : Nat
  sha1s : List String

/-- Modelled from the spec: `BasePart.__init__` (`bucket/base.py`, not under
`src/`) initialises the linear state accumulator — part counter zero, rolling
hash list empty. -/
def PartsState.init : PartsState := ⟨0, []⟩

/-- Modelled from the spec: `sha1s_append` (`bucket/base.py`, not under
`src/`) appends one digest to the rolling hash list. -/
def PartsState.sha1s_append (st : PartsState) (s : String) : PartsState :=
  { st with sha1s := st.sha1s ++ [s] }

/-- Observable effects of one `AwaitingParts.data` call, in program order:
the `await self._file.upload_url()` acquisition and the part's POST. -/
inductive Event where
  | uploadUrlCall : Event
  | post : Request → Event

/-- The POSTs of an event trace, in order. -/
def posted (evs : List Event) : List Request :=
  evs.filterMap (fun e => match e with
    | Event.post r => some r
    | _ => none)

/-- `AwaitingParts.data` (bucket/awaiting/part.py, lines 62–94): increments
`self.part_number`, acquires an upload url, hashes the bytes with SHA-1 and
appends the hex digest to `self.sha1s`, then POSTs the bytes to the upload url
with the Content-Length, X-Bz-Part-Number, X-Bz-Content-Sha1 and Authorization
headers, returning the response wrapped as a `PartModel`.  `sha1hex` is the
external `hashlib.sha1(...).hexdigest()`; `upload` is the environment's answer
to `self._file.upload_url()`; `resp` the JSON answer to the POST. -/
def AwaitingParts.data (sha1hex : ByteData → String) (upload : UploadUrlModel)
    (resp : JVal) (st : PartsState) (d : ByteData) :
    PartsState × List Event × PartModel :=
  let st1 : PartsState := { st with part_number := st.part_number + 1 }
  let sha1_str := sha1hex d
  let st2 := st1.sha1s_append sha1_str
  (st2,
    [Event.uploadUrlCall,
     Event.post
      { url := upload.upload_url
        headers :=
          [("Content-Length", toString (List.length d)),
           ("X-Bz-Part-Number", toString st1.part_number),
           ("X-Bz-Content-Sha1", sha1_str),
           ("Authorization", upload.authorization_token)]
        json := none
        body := some d
        include_account := false }],
    PartModel.mk resp)

/-- Environment of one `data` call: the upload url handed back by
`upload_url()`, the JSON response to the POST and the bytes uploaded. -/
structure DataCall where
  upload : UploadUrlModel
  resp : JVal
  bytes : ByteData

/-- A sequence of `AwaitingParts.data` calls from a given state, collecting
the concatenated event trace. -/
def runData (sha1hex : ByteData → String) (st : PartsState) :
    List DataCall → PartsState × List Event
  | [] => (st, [])
  | c :: cs =>
    let r1 := AwaitingParts.data sha1hex c.upload c.resp st c.bytes
    let r2 := runData sha1hex r1.1 cs
    (r2.1, r1.2.1 ++ r2.2)

/-- `AwaitingParts.list` (bucket/awaiting/part.py, lines 13–37): POSTs to the
list-parts route a body of the file id, `startPartNumber` — the current
`part_number` when positive, else `1` — and the part limit (`100` by default
in Python), then yields each part of the response together with the response's
`nextPartNumber`.  The state is read, never written.  `respData` is the JSON
answer to the POST; a `none` yield list models the `KeyError`/`TypeError` the
generator body would raise on a malformed response. -/
def AwaitingParts.list (routes : Routes) (file_id : String) (limit : Nat)
    (respData : JVal) (st : PartsState) :
    PartsState × Request × Option (List (PartModel × Option JVal)) :=
  let req : Request :=
    { url := routes.file_list_parts
      headers := []
      json := some (JVal.jobj
        [("fileId", JVal.jstr file_id),
         ("startPartNumber",
          JVal.jnum (if st.part_number > 0 then st.part_number else 1)),
         ("maxPartCount", JVal.jnum limit)])
      body := none
      include_account := false }
  let yields : Option (List (PartModel × Option JVal)) :=
    match jLookup respData "parts" with
    | some (JVal.jarr parts) =>
      some (parts.map (fun p => (PartModel.mk p, jLookup respData "nextPartNumber")))
    | _ => none
  (st, req, yields)

/-- Modelled from the spec: `CopyPartSettings` (`settings.py`, not under
`src/`) carries the options of a copy-part call; its payload holds the
destination large file id and an optional byte range, and contains neither a
`sourceFileId` nor a `partNumber` key — `AwaitingParts.copy` supplies those
itself. -/
structure CopyPartSettings where
  large_file_id : String
  range : Option String

/-- Modelled from the spec: the `payload` of `CopyPartSettings`. -/
def CopyPartSettings.payload (s : CopyPartSettings) : List (String × JVal) :=
  [("largeFileId", JVal.jstr s.large_file_id)] ++
    (match s.range with
     | some r => [("range", JVal.jstr r)]
     | none => [])

/-- `AwaitingParts.copy` (bucket/awaiting/part.py, lines 39–60): POSTs to the
copy-part route a body of the source file id, `partNumber` — the current
`part_number` when positive, else `1` — spread together with the settings
payload, and returns the response wrapped as a `PartModel`.  The state is
read, never written. -/
def AwaitingParts.copy (routes : Routes) (file_id : String)
    (settings : CopyPartSettings) (resp : JVal) (st : PartsState) :
    PartsState × Request × PartModel :=
  (st,
   { url := routes.file_copy_part
     headers := []
     json := some (JVal.jobj
       ([("sourceFileId", JVal.jstr file_id),
         ("partNumber",
          JVal.jnum (if st.part_number > 0 then st.part_number else 1))] ++
        settings.payload))
     body := none
     include_account := false },
   PartModel.mk resp)

/-- `AwaitingParts.finish` (bucket/awaiting/part.py, lines 110–128): POSTs to
the finish-large-file route a body of exactly the file id and
`partSha1Array := self.sha1s`, and returns the response wrapped as a
`FileModel`.  The state is read, never written. -/
def AwaitingParts.finish (routes : Routes) (file_id : String) (resp : JVal)
    (st : PartsState) : PartsState × Request × FileModel :=
  (st,
   { url := routes.file_finish_large
     headers := []
     json := some (JVal.jobj
       [("fileId", JVal.jstr file_id),
        ("partSha1Array", JVal.jarr (st.sha1s.map JVal.jstr))])
     body := none
     include_account := false },
   FileModel.mk resp)

/-- Modelled from the spec: `models/bucket.py` (not under `src/`) wraps the
raw JSON of a bucket record; `bucket_id` reads its `bucketId` field. -/
structure BucketModel where
  raw : JVal

/-- The `bucket_id` attribute of a `BucketModel`. -/
def BucketModel.bucket_id (m : BucketModel) : Option JVal :=
  jLookup m.raw "bucketId"

/-- `Awaiting.bucket` returns `AwaitingBucket(self, bucket_id)`
(`bucket/awaiting`, not under `src/` beyond its use here): a handle carrying
the bucket id it was constructed for. -/
structure AwaitingBucket where
  bucket_id : JVal

/-- `Blocking.bucket` returns `BlockingBucket(self, bucket_id)`: a handle
carrying the bucket id it was constructed for. -/
structure BlockingBucket where
  bucket_id : JVal

/-- `Awaiting.create_bucket` (backblaze/__init__.py, lines 46–68): POSTs the
settings payload to the bucket-create route, wraps the response as a
`BucketModel` and pairs it with `self.bucket(data.bucket_id)`.  A `none` pair
models the `KeyError` raised when the response lacks a `bucketId`. -/
def Awaiting.create_bucket (routes : Routes) (settings_payload : JVal)
    (resp : JVal) : Request × Option (BucketModel × AwaitingBucket) :=
  ({ url := routes.bucket_create
     headers := []
     json := some settings_payload
     body := none
     include_account := true },
   (BucketModel.bucket_id (BucketModel.mk resp)).map
     (fun bid => (BucketModel.mk resp, AwaitingBucket.mk bid)))

/-- `Blocking.create_bucket` (backblaze/__init__.py, lines 162–184): POSTs the
settings payload to the bucket-create route, wraps the response as a
`BucketModel` and pairs it with `self.bucket(data.bucket_id)`. -/
def Blocking.create_bucket (routes : Routes) (settings_payload : JVal)
    (resp : JVal) : Request × Option (BucketModel × BlockingBucket) :=
  ({ url := routes.bucket_create
     headers := []
     json := some settings_payload
     body := none
     include_account := true },
   (BucketModel.bucket_id (BucketModel.mk resp)).map
     (fun bid => (BucketModel.mk resp, BlockingBucket.mk bid)))

/-- The generator body of `Awaiting.buckets`: for each entry of the
response's `buckets` list, in order, yield `BucketModel(bucket)` paired with
`self.bucket(bucket["bucketId"])`; `none` models the `KeyError` raised at an
entry without a `bucketId`. -/
def Awaiting.yield_buckets : List JVal → Option (List (BucketModel × AwaitingBucket))
  | [] => some []
  | b :: rest =>
    match jLookup b "bucketId" with
    | some bid =>
      (Awaiting.yield_buckets rest).map
        (fun l => (BucketModel.mk b, AwaitingBucket.mk bid) :: l)
    | none => none

/-- The generator body of `Blocking.buckets`: for each entry of the
response's `buckets` list, in order, yield `BucketModel(bucket)` paired with
`self.bucket(bucket["bucketId"])`. -/
def Blocking.yield_buckets : List JVal → Option (List (BucketModel × BlockingBucket))
  | [] => some []
  | b :: rest =>
    match jLookup b "bucketId" with
    | some bid =>
      (Blocking.yield_buckets rest).map
        (fun l => (BucketModel.mk b, BlockingBucket.mk bid) :: l)
    | none => none

/-- `Awaiting.buckets` (backblaze/__init__.py, lines 70–93): POSTs
`{"bucketTypes": type}` to the bucket-list route (`type` defaults to
`["all"]` in Python) and yields a model/handle pair per entry of the
response's `buckets` list. -/
def Awaiting.buckets (routes : Routes) (ty : List String) (resp : JVal) :
    Request × Option (List (BucketModel × AwaitingBucket)) :=
  ({ url := routes.bucket_list
     headers := []
     json := some (JVal.jobj [("bucketTypes", JVal.jarr (ty.map JVal.jstr))])
     body := none
     include_account := true },
   match jLookup resp "buckets" with
   | some (JVal.jarr xs) => Awaiting.yield_buckets xs
   | _ => none)

/-- `Blocking.buckets` (backblaze/__init__.py, lines 186–209): POSTs
`{"bucketTypes": type}` to the bucket-list route and yields a model/handle
pair per entry of the response's `buckets` list. -/
def Blocking.buckets (routes : Routes) (ty : List String) (resp : JVal) :
    Request × Option (List (BucketModel × BlockingBucket)) :=
  ({ url := routes.bucket_list
     headers := []
     json := some (JVal.jobj [("bucketTypes", JVal.jarr (ty.map JVal.jstr))])
     body := none
     include_account := true },
   match jLookup resp "buckets" with
   | some (JVal.jarr xs) => Blocking.yield_buckets xs
   | _ => none)

/-- An HTTP response to the authorization GET: status code and parsed JSON
body. -/
structure HttpResponse where
  status : Nat
  json : JVal

/-- httpx's `Response.raise_for_status` returns normally exactly on a 2xx
success status and raises `HTTPStatusError` otherwise. -/
def http_success (status : Nat) : Bool :=
  200 ≤ status && status ≤ 299

/-- Modelled from the spec: `models/auth.py` (not under `src/`); the fields of
the authorization response the clients consume — account id, auth token, api
url and download url. -/
structure AuthModel where
  account_id : Option JVal
  auth_token : Option JVal
  api_url : Option JVal
  download_url : Option JVal

/-- Modelled from the spec: `AuthModel(resp.json())` reads the standard B2
authorize-account response fields. -/
def AuthModel.of_json (j : JVal) : AuthModel :=
  { account_id := jLookup j "accountId"
    auth_token := jLookup j "authorizationToken"
    api_url := jLookup j "apiUrl"
    download_url := jLookup j "downloadUrl" }

/-- The client state `authorize` may mutate: `self.account_id`, the routes
formatted by `_format_routes(api_url, download_url)`, the underlying HTTP
client's `Authorization` header, and the `_running_task` flag guarding the
background refresh. -/
structure AuthorizeState where
  account_id : Option JVal
  formatted_routes : Option (Option JVal × Option JVal)
  authorization_header : Option JVal
  running_task : Bool

/-- Background-refresh effects a call to `authorize` can emit.
`task_create` is `asyncio.create_task(self.__authorize_background())`;
`thread_create` is the construction `threading.Thread(target=...)` of a thread
object; `thread_start` would be a call to `Thread.start` — the `Blocking`
client never emits it. -/
inductive AuthEvent where
  | task_create : AuthEvent
  | thread_create : AuthEvent
  | thread_start : AuthEvent

/-- Whether the effect makes the background refresh timer begin executing:
`asyncio.create_task` schedules its coroutine to run, and `Thread.start`
starts a thread, but a `threading.Thread` object that is merely constructed
never runs. -/
def AuthEvent.starts_timer : AuthEvent → Bool
  | AuthEvent.task_create => true
  | AuthEvent.thread_create => false
  | AuthEvent.thread_start => true

/-- `Awaiting.authorize` (backblaze/__init__.py, lines 119–147): GETs the auth
url, calls `raise_for_status` — on a non-2xx status the method raises there,
before any assignment, leaving the state untouched — then sets
`self.account_id`, formats the routes, sets the client's `Authorization`
header and, when `self._running_task` is unset, schedules
`__authorize_background` with `asyncio.create_task`, returning the
`AuthModel`. -/
def Awaiting.authorize (st : AuthorizeState) (resp : HttpResponse) :
    AuthorizeState × List AuthEvent × Except Unit AuthModel :=
  if http_success resp.status then
    let data := AuthModel.of_json resp.json
    let st1 := { st with account_id := data.account_id }
    let st2 := { st1 with formatted_routes := some (data.api_url, data.download_url) }
    let st3 := { st2 with authorization_header := data.auth_token }
    (st3,
     (if st.running_task then [] else [AuthEvent.task_create]),
     Except.ok data)
  else
    (st, [], Except.error ())

/-- `Blocking.authorize` (backblaze/__init__.py, lines 235–263): GETs the auth
url, calls `raise_for_status` — on a non-2xx status the method raises there,
before any assignment — then sets `self.account_id`, formats the routes, sets
the client's `Authorization` header and, when `self._running_task` is unset,
evaluates `threading.Thread(target=self.__authorize_background)`: the thread
object is constructed but `start` is never called on it. -/
def Blocking.authorize (st : AuthorizeState) (resp : HttpResponse) :
    AuthorizeState × List AuthEvent × Except Unit AuthModel :=
  if http_success resp.status then
    let data := AuthModel.of_json resp.json
    let st1 := { st with account_id := data.account_id }
    let st2 := { st1 with formatted_routes := some (data.api_url, data.download_url) }
    let st3 := { st2 with authorization_header := data.auth_token }
    (st3,
     (if st.running_task then [] else [AuthEvent.thread_create]),
     Except.ok data)
  else
    (st, [], Except.error ())

/-- Erasing an awaiting bucket handle to the id it was constructed for, used
to compare pairs across the two client types. -/
def eraseA (p : BucketModel × AwaitingBucket) : BucketModel × JVal :=
  (p.1, p.2.bucket_id)

/-- Erasing a blocking bucket handle to the id it was constructed for. -/
def eraseB (p : BucketModel × BlockingBucket) : BucketModel × JVal :=
  (p.1, p.2.bucket_id)

/-! Concrete fixtures used to exercise the model on closed inputs. -/

/-- A concrete route table. -/
def routes0 : Routes := ⟨"u1", "u2", "u3", "u4", "u5"⟩

/-- A concrete stand-in for the external SHA-1 hex digest. -/
def sha1hex0 : ByteData → String := fun d => toString (List.length d)

/-- A concrete upload url answer. -/
def upload0 : UploadUrlModel := ⟨"pod.example/upload", "utoken"⟩

/-- An empty JSON object, a generic response body. -/
def jnull0 : JVal := JVal.jobj []

/-- Two concrete `data` calls. -/
def calls0 : List DataCall := [⟨upload0, jnull0, [1, 2]⟩, ⟨upload0, jnull0, [3]⟩]

/-- Concrete copy-part settings. -/
def settings0 : CopyPartSettings := ⟨"lf1", none⟩

/-- A concrete parts state satisfying the accumulator invariant. -/
def pstate0 : PartsState := ⟨2, ["d1", "d2"]⟩

/-- The initial client state before any authorization. -/
def auth_st0 : AuthorizeState := ⟨none, none, none, false⟩

/-- A concrete failing authorization response. -/
def resp_err0 : HttpResponse := ⟨503, jnull0⟩

/-- A concrete successful authorization response. -/
def resp_ok0 : HttpResponse :=
  ⟨200, JVal.jobj
    [("accountId", JVal.jstr "acc"),
     ("authorizationToken", JVal.jstr "tok"),
     ("apiUrl", JVal.jstr "api"),
     ("downloadUrl", JVal.jstr "dl")]⟩

/-- A concrete bucket record. -/
def bucket_entry0 : JVal := JVal.jobj [("bucketId", JVal.jstr "b1")]

/-- A concrete bucket-list response holding one bucket. -/
def respL0 : JVal := JVal.jobj [("buckets", JVal.jarr [bucket_entry0])]

/-- A concrete bucket-create settings payload. -/
def payload0 : JVal := JVal.jobj [("bucketName", JVal.jstr "n")]

/-! Helper lemmas. -/

/-- The final part counter of a call sequence is the initial counter plus the
number of calls. -/
theorem runData_part_number (h : ByteData → String) :
    ∀ (calls : List DataCall) (st : PartsState),
      (runData h st calls).1.part_number = st.part_number + calls.length := by
  intro calls
  induction calls with
  | nil => intro st; rfl
  | cons c cs ih =>
    intro st
    have h2 : (runData h st (c :: cs)).1.part_number =
        st.part_number + 1 + cs.length :=
      ih ⟨st.part_number + 1, st.sha1s ++ [h c.bytes]⟩
    rw [List.length_cons, h2]
    omega

/-- A call sequence issues exactly one POST per call. -/
theorem runData_posted_length (h : ByteData → String) :
    ∀ (calls : List DataCall) (st : PartsState),
      (posted (runData h st calls).2).length = calls.length := by
  intro calls
  induction calls with
  | nil => intro st; rfl
  | cons c cs ih =>
    intro st
    exact congrArg Nat.succ (ih ⟨st.part_number + 1, st.sha1s ++ [h c.bytes]⟩)

/-- The k-th POST of a call sequence carries part number
`st.part_number + k + 1`. -/
theorem runData_posted_get? (h : ByteData → String) :
    ∀ (calls : List DataCall) (st : PartsState) (k : Nat), k < calls.length →
      (((posted (runData h st calls).2).get? k).bind
        (fun r => headerVal r "X-Bz-Part-Number")) =
        some (toString (st.part_number + k + 1)) := by
  intro calls
  induction calls with
  | nil => intro st k hk; cases hk
  | cons c cs ih =>
    intro st k hk
    cases k with
    | zero => rfl
    | succ k =>
      have hk' : k < cs.length := Nat.lt_of_succ_lt_succ hk
      have h2 := ih ⟨st.part_number + 1, st.sha1s ++ [h c.bytes]⟩ k hk'
      have h3 : (st.part_number + 1) + k + 1 = st.part_number + (k + 1) + 1 := by
        omega
      rw [h3] at h2
      exact h2

/-- Up to erasing the handle type, both generator bodies produce the same
model/bucket-id pairs. -/
theorem yield_buckets_erase :
    ∀ xs : List JVal,
      (Awaiting.yield_buckets xs).map (fun l => l.map eraseA) =
      (Blocking.yield_buckets xs).map (fun l => l.map eraseB) := by
  intro xs
  induction xs with
  | nil => rfl
  | cons b rest ih =>
    unfold Awaiting.yield_buckets Blocking.yield_buckets
    cases h : jLookup b "bucketId" with
    | none => rfl
    | some bid =>
      cases oa : Awaiting.yield_buckets rest with
      | none =>
        cases ob : Blocking.yield_buckets rest with
        | none => rfl
        | some lb => rw [oa, ob] at ih; simp at ih
      | some la =>
        cases ob : Blocking.yield_buckets rest with
        | none => rw [oa, ob] at ih; simp at ih
        | some lb =>
          rw [oa, ob] at ih
          have ih' : la.map eraseA = lb.map eraseB := Option.some.inj ih
          show some (List.map eraseA ((BucketModel.mk b, AwaitingBucket.mk bid) :: la)) =
            some (List.map eraseB ((BucketModel.mk b, BlockingBucket.mk bid) :: lb))
          rw [List.map_cons, List.map_cons, ih']
          rfl

/-- Per-entry characterisation of the awaiting generator body: on success it
yields, for the k-th entry, the model of that entry paired with a handle for
that entry's `bucketId`. -/
theorem awaiting_yield_buckets_get? :
    ∀ (xs : List JVal) (l : List (BucketModel × AwaitingBucket)),
      Awaiting.yield_buckets xs = some l →
      l.length = xs.length ∧
      ∀ (k : Nat) (b : JVal), xs.get? k = some b →
        ∃ bid, jLookup b "bucketId" = some bid ∧
          l.get? k = some (BucketModel.mk b, AwaitingBucket.mk bid) := by
  intro xs
  induction xs with
  | nil =>
    intro l hl
    have hl' : l = [] := (Option.some.inj hl).symm
    subst hl'
    exact ⟨rfl, fun k b hb => by cases k <;> cases hb⟩
  | cons x rest ih =>
    intro l hl
    unfold Awaiting.yield_buckets at hl
    cases h : jLookup x "bucketId" with
    | none => rw [h] at hl; cases hl
    | some bid =>
      rw [h] at hl
      cases oa : Awaiting.yield_buckets rest with
      | none => rw [oa] at hl; cases hl
      | some la =>
        rw [oa] at hl
        simp only [Option.map_some] at hl
        have hl' : l = (BucketModel.mk x, AwaitingBucket.mk bid) :: la :=
          (Option.some.inj hl).symm
        subst hl'
        rcases ih la oa with ⟨hlen, hget⟩
        refine ⟨by simp [hlen], ?_⟩
        intro k b hb
        cases k with
        | zero =>
          have hb' : x = b := Option.some.inj hb
          subst hb'
          exact ⟨bid, h, rfl⟩
        | succ k => exact hget k b hb

/-- Per-entry characterisation of the blocking generator body. -/
theorem blocking_yield_buckets_get? :
    ∀ (xs : List JVal) (l : List (BucketModel × BlockingBucket)),
      Blocking.yield_buckets xs = some l →
      l.length = xs.length ∧
      ∀ (k : Nat) (b : JVal), xs.get? k = some b →
        ∃ bid, jLookup b "bucketId" = some bid ∧
          l.get? k = some (BucketModel.mk b, BlockingBucket.mk bid) := by
  intro xs
  induction xs with
  | nil =>
    intro l hl
    have hl' : l = [] := (Option.some.inj hl).symm
    subst hl'
    exact ⟨rfl, fun k b hb => by cases k <;> cases hb⟩
  | cons x rest ih =>
    intro l hl
    unfold Blocking.yield_buckets at hl
    cases h : jLookup x "bucketId" with
    | none => rw [h] at hl; cases hl
    | some bid =>
      rw [h] at hl
      cases oa : Blocking.yield_buckets rest with
      | none => rw [oa] at hl; cases hl
      | some la =>
        rw [oa] at hl
        simp only [Option.map_some] at hl
        have hl' : l = (BucketModel.mk x, BlockingBucket.mk bid) :: la :=
          (Option.some.inj hl).symm
        subst hl'
        rcases ih la oa with ⟨hlen, hget⟩
        refine ⟨by simp [hlen], ?_⟩
        intro k b hb
        cases k with
        | zero =>
          have hb' : x = b := Option.some.inj hb
          subst hb'
          exact ⟨bid, h, rfl⟩
        | succ k => exact hget k b hb

/-! Claim theorems. -/

/-- Claim C1: part numbering during a multipart upload is sequential — over
any sequence of `n` calls to `AwaitingParts.data` from a fresh parts object
(`part_number = 0`), each call increments the counter by one, exactly one POST
is issued per call, and the k-th POST (1-indexed) carries the header
`X-Bz-Part-Number = k`, so the uploaded parts are numbered `1, 2, ..., n` in
call order. -/
theorem data_sequential_part_numbering (h : ByteData → String)
    (calls : List DataCall) (k : Nat) (hk : k < calls.length) :
    (runData h PartsState.init calls).1.part_number = calls.length ∧
    (posted (runData h PartsState.init calls).2).length = calls.length ∧
    (((posted (runData h PartsState.init calls).2).get? k).bind
      (fun r => headerVal r "X-Bz-Part-Number")) = some (toString (k + 1)) := by
  refine ⟨?_, runData_posted_length h calls PartsState.init, ?_⟩
  · have h0 : PartsState.init.part_number = 0 := rfl
    have h1 := runData_part_number h calls PartsState.init
    omega
  · have h3 := runData_posted_get? h calls PartsState.init k hk
    rw [h3]
    simp [PartsState.init]

/-- Witness for C1 at two concrete calls and k = 1. -/
theorem data_sequential_part_numbering_witness :
    1 < calls0.length ∧
    ((runData sha1hex0 PartsState.init calls0).1.part_number = calls0.length ∧
     (posted (runData sha1hex0 PartsState.init calls0).2).length = calls0.length ∧
     (((posted (runData sha1hex0 PartsState.init calls0).2).get? 1).bind
       (fun r => headerVal r "X-Bz-Part-Number")) = some (toString (1 + 1))) :=
  ⟨by decide, data_sequential_part_numbering sha1hex0 calls0 1 (by decide)⟩

/-- Claim C2: per-part content hashing — `AwaitingParts.data` appends the hex
SHA-1 digest of exactly the uploaded bytes to the rolling `sha1s` list, and
its single POST carries the header `X-Bz-Content-Sha1` equal to that digest. -/
theorem data_sha1_per_part (h : ByteData → String) (u : UploadUrlModel)
    (resp : JVal) (st : PartsState) (d : ByteData) :
    (AwaitingParts.data h u resp st d).1.sha1s = st.sha1s ++ [h d] ∧
    ∃ r, posted (AwaitingParts.data h u resp st d).2.1 = [r] ∧
      headerVal r "X-Bz-Content-Sha1" = some (h d) :=
  ⟨rfl, ⟨_, rfl, rfl⟩⟩

/-- Claim C3: final assembly — `AwaitingParts.finish` POSTs to the
finish-large-file route a body of exactly the file id and `partSha1Array`
equal to the accumulated digests in upload order, and returns the response
wrapped as a `FileModel`. -/
theorem finish_assembles_file (routes : Routes) (fid : String) (resp : JVal)
    (st : PartsState) :
    (AwaitingParts.finish routes fid resp st).1 = st ∧
    (AwaitingParts.finish routes fid resp st).2.1.url = routes.file_finish_large ∧
    (AwaitingParts.finish routes fid resp st).2.1.json =
      some (JVal.jobj
        [("fileId", JVal.jstr fid),
         ("partSha1Array", JVal.jarr (st.sha1s.map JVal.jstr))]) ∧
    (AwaitingParts.finish routes fid resp st).2.2 = FileModel.mk resp :=
  ⟨rfl, rfl, rfl, rfl⟩

/-- Claim C4: the linear accumulator invariant `part_number = sha1s.length` is
preserved by `AwaitingParts.data` (one increment, one append) and untouched by
`list`, `copy` and `finish`, which leave the whole state unchanged. -/
theorem parts_accumulator_invariant (h : ByteData → String)
    (u : UploadUrlModel) (routes : Routes) (fid : String) (limit : Nat)
    (respData resp : JVal) (settings : CopyPartSettings) (d : ByteData)
    (st : PartsState) (hinv : st.part_number = st.sha1s.length) :
    (AwaitingParts.data h u resp st d).1.part_number =
      (AwaitingParts.data h u resp st d).1.sha1s.length ∧
    (AwaitingParts.list routes fid limit respData st).1 = st ∧
    (AwaitingParts.copy routes fid settings resp st).1 = st ∧
    (AwaitingParts.finish routes fid resp st).1 = st := by
  refine ⟨?_, rfl, rfl, rfl⟩
  simp [AwaitingParts.data, PartsState.sha1s_append, hinv]

/-- Witness for C4 at a concrete state satisfying the invariant. -/
theorem parts_accumulator_invariant_witness :
    pstate0.part_number = pstate0.sha1s.length ∧
    ((AwaitingParts.data sha1hex0 upload0 jnull0 pstate0 [7]).1.part_number =
      (AwaitingParts.data sha1hex0 upload0 jnull0 pstate0 [7]).1.sha1s.length ∧
     (AwaitingParts.list routes0 "f1" 100 jnull0 pstate0).1 = pstate0 ∧
     (AwaitingParts.copy routes0 "f1" settings0 jnull0 pstate0).1 = pstate0 ∧
     (AwaitingParts.finish routes0 "f1" jnull0 pstate0).1 = pstate0) :=
  ⟨rfl, parts_accumulator_invariant sha1hex0 upload0 routes0 "f1" 100 jnull0
    jnull0 settings0 [7] pstate0 rfl⟩

/-- Claim C5: upload-url acquisition — each `AwaitingParts.data` call first
performs the `upload_url()` acquisition and then POSTs to exactly the acquired
upload url, with the `Authorization` header equal to exactly that url's
authorization token. -/
theorem data_uses_acquired_upload_url (h : ByteData → String)
    (u : UploadUrlModel) (resp : JVal) (st : PartsState) (d : ByteData) :
    ∃ r, (AwaitingParts.data h u resp st d).2.1 =
        [Event.uploadUrlCall, Event.post r] ∧
      r.url = u.upload_url ∧
      headerVal r "Authorization" = some u.authorization_token :=
  ⟨_, rfl, rfl, rfl⟩

/-- Claim C6 (divergence witness): the synchronous client never starts the
background refresh timer — `Blocking.authorize` only ever constructs a
`threading.Thread` object without calling `start` on it, so no emitted effect
ever begins executing the refresh timer, contrary to the claim (and to the
method's own docstring) that a background timer re-runs the login call. -/
theorem blocking_authorize_never_starts_timer (st : AuthorizeState)
    (resp : HttpResponse) :
    ((Blocking.authorize st resp).2.1).all
      (fun e => ! AuthEvent.starts_timer e) = true := by
  cases hs : http_success resp.status with
  | false => simp [Blocking.authorize, hs]
  | true =>
    cases hr : st.running_task with
    | false => simp [Blocking.authorize, hs, hr, AuthEvent.starts_timer]
    | true => simp [Blocking.authorize, hs, hr]

/-- Claim C7: synchronous/asynchronous equivalence — for the same inputs,
`create_bucket` of both clients issues the same request and returns the same
model together with a handle for the same bucket id, and `buckets` of both
clients issues the same request and yields the same model/bucket-id pairs. -/
theorem blocking_awaiting_equivalent (routes : Routes) (payload resp : JVal)
    (ty : List String) (respL : JVal) :
    (Awaiting.create_bucket routes payload resp).1 =
      (Blocking.create_bucket routes payload resp).1 ∧
    (Awaiting.create_bucket routes payload resp).2.map eraseA =
      (Blocking.create_bucket routes payload resp).2.map eraseB ∧
    (Awaiting.buckets routes ty respL).1 = (Blocking.buckets routes ty respL).1 ∧
    (Awaiting.buckets routes ty respL).2.map (fun l => l.map eraseA) =
      (Blocking.buckets routes ty respL).2.map (fun l => l.map eraseB) := by
  refine ⟨rfl, ?_, rfl, ?_⟩
  · cases h : BucketModel.bucket_id (BucketModel.mk resp) with
    | none => simp [Awaiting.create_bucket, Blocking.create_bucket, h]
    | some bid =>
      simp [Awaiting.create_bucket, Blocking.create_bucket, h, eraseA, eraseB]
  · show ((match jLookup respL "buckets" with
      | some (JVal.jarr xs) => Awaiting.yield_buckets xs
      | _ => none) :
        Option (List (BucketModel × AwaitingBucket))).map
          (fun l => l.map eraseA) =
      ((match jLookup respL "buckets" with
      | some (JVal.jarr xs) => Blocking.yield_buckets xs
      | _ => none) :
        Option (List (BucketModel × BlockingBucket))).map
          (fun l => l.map eraseB)
    cases h : jLookup respL "buckets" with
    | none => rfl
    | some v =>
      cases v with
      | jarr xs => exact yield_buckets_erase xs
      | jstr s => rfl
      | jnum n => rfl
      | jobj fields => rfl

/-- Claim C8: part-number floor at the public interface — `AwaitingParts.list`
sends `startPartNumber` and `AwaitingParts.copy` sends `partNumber` equal to
the current `part_number` when positive and `1` otherwise, and neither call
changes the state. -/
theorem list_copy_part_number_floor (routes : Routes) (fid : String)
    (limit : Nat) (respData resp : JVal) (settings : CopyPartSettings)
    (st : PartsState) :
    (AwaitingParts.list routes fid limit respData st).1 = st ∧
    jsonField (AwaitingParts.list routes fid limit respData st).2.1
      "startPartNumber" =
      some (JVal.jnum (if st.part_number > 0 then st.part_number else 1)) ∧
    (AwaitingParts.copy routes fid settings resp st).1 = st ∧
    jsonField (AwaitingParts.copy routes fid settings resp st).2.1
      "partNumber" =
      some (JVal.jnum (if st.part_number > 0 then st.part_number else 1)) :=
  ⟨rfl, rfl, rfl, rfl⟩

/-- Claim C9: atomicity of authorization on error — for both clients, a
non-success response makes `authorize` raise before any mutation, leaving the
whole client state unchanged, and on a successful response `account_id`, the
formatted routes and the `Authorization` header are set from the response's
fields. -/
theorem authorize_atomic_on_error (st : AuthorizeState) (resp : HttpResponse) :
    (http_success resp.status = false →
      Awaiting.authorize st resp = (st, [], Except.error ()) ∧
      Blocking.authorize st resp = (st, [], Except.error ())) ∧
    (http_success resp.status = true →
      ((Awaiting.authorize st resp).1.account_id =
          jLookup resp.json "accountId" ∧
       (Awaiting.authorize st resp).1.formatted_routes =
          some (jLookup resp.json "apiUrl", jLookup resp.json "downloadUrl") ∧
       (Awaiting.authorize st resp).1.authorization_header =
          jLookup resp.json "authorizationToken") ∧
      ((Blocking.authorize st resp).1.account_id =
          jLookup resp.json "accountId" ∧
       (Blocking.authorize st resp).1.formatted_routes =
          some (jLookup resp.json "apiUrl", jLookup resp.json "downloadUrl") ∧
       (Blocking.authorize st resp).1.authorization_header =
          jLookup resp.json "authorizationToken")) := by
  constructor
  · intro h
    constructor <;> simp [Awaiting.authorize, Blocking.authorize, h]
  · intro h
    constructor <;>
      simp [Awaiting.authorize, Blocking.authorize, h, AuthModel.of_json]

/-- Witness for C9 at a concrete 503 response and a concrete 200 response. -/
theorem authorize_atomic_on_error_witness :
    (Awaiting.authorize auth_st0 resp_err0 = (auth_st0, [], Except.error ()) ∧
     Blocking.authorize auth_st0 resp_err0 = (auth_st0, [], Except.error ())) ∧
    ((Awaiting.authorize auth_st0 resp_ok0).1.account_id =
        jLookup resp_ok0.json "accountId" ∧
     (Awaiting.authorize auth_st0 resp_ok0).1.formatted_routes =
        some (jLookup resp_ok0.json "apiUrl", jLookup resp_ok0.json "downloadUrl") ∧
     (Awaiting.authorize auth_st0 resp_ok0).1.authorization_header =
        jLookup resp_ok0.json "authorizationToken") ∧
    ((Blocking.authorize auth_st0 resp_ok0).1.account_id =
        jLookup resp_ok0.json "accountId" ∧
     (Blocking.authorize auth_st0 resp_ok0).1.formatted_routes =
        some (jLookup resp_ok0.json "apiUrl", jLookup resp_ok0.json "downloadUrl") ∧
     (Blocking.authorize auth_st0 resp_ok0).1.authorization_header =
        jLookup resp_ok0.json "authorizationToken") :=
  ⟨(authorize_atomic_on_error auth_st0 resp_err0).1 rfl,
   (authorize_atomic_on_error auth_st0 resp_ok0).2 rfl⟩

/-- Claim C10: model/handle consistency — for both clients, `create_bucket`
pairs the model of the response with a handle for exactly that model's
`bucket_id`, and `buckets` yields, for the k-th entry of the response's
`buckets` list, the model of that entry paired with a handle for that entry's
`bucketId`. -/
theorem model_handle_consistency (routes : Routes) (payload resp : JVal)
    (ty : List String) (respL : JVal) :
    (∀ m hd, (Awaiting.create_bucket routes payload resp).2 = some (m, hd) →
      m = BucketModel.mk resp ∧ m.bucket_id = some hd.bucket_id) ∧
    (∀ m hd, (Blocking.create_bucket routes payload resp).2 = some (m, hd) →
      m = BucketModel.mk resp ∧ m.bucket_id = some hd.bucket_id) ∧
    (∀ xs, jLookup respL "buckets" = some (JVal.jarr xs) →
      (∀ l, (Awaiting.buckets routes ty respL).2 = some l →
        l.length = xs.length ∧
        ∀ k b, xs.get? k = some b →
          ∃ bid, jLookup b "bucketId" = some bid ∧
            l.get? k = some (BucketModel.mk b, AwaitingBucket.mk bid)) ∧
      (∀ l, (Blocking.buckets routes ty respL).2 = some l →
        l.length = xs.length ∧
        ∀ k b, xs.get? k = some b →
          ∃ bid, jLookup b "bucketId" = some bid ∧
            l.get? k = some (BucketModel.mk b, BlockingBucket.mk bid))) := by
  refine ⟨?_, ?_, ?_⟩
  · intro m hd he
    cases h : BucketModel.bucket_id (BucketModel.mk resp) with
    | none =>
      rw [show (Awaiting.create_bucket routes payload resp).2 =
        (BucketModel.bucket_id (BucketModel.mk resp)).map
          (fun bid => (BucketModel.mk resp, AwaitingBucket.mk bid)) from rfl,
        h] at he
      cases he
    | some bid =>
      rw [show (Awaiting.create_bucket routes payload resp).2 =
        (BucketModel.bucket_id (BucketModel.mk resp)).map
          (fun bid => (BucketModel.mk resp, AwaitingBucket.mk bid)) from rfl,
        h] at he
      have he' := Option.some.inj he
      have hm : m = BucketModel.mk resp := congrArg Prod.fst he'.symm
      have hh : hd = AwaitingBucket.mk bid := congrArg Prod.snd he'.symm
      subst hm; subst hh
      exact ⟨rfl, h⟩
  · intro m hd he
    cases h : BucketModel.bucket_id (BucketModel.mk resp) with
    | none =>
      rw [show (Blocking.create_bucket routes payload resp).2 =
        (BucketModel.bucket_id (BucketModel.mk resp)).map
          (fun bid => (BucketModel.mk resp, BlockingBucket.mk bid)) from rfl,
        h] at he
      cases he
    | some bid =>
      rw [show (Blocking.create_bucket routes payload resp).2 =
        (BucketModel.bucket_id (BucketModel.mk resp)).map
          (fun bid => (BucketModel.mk resp, BlockingBucket.mk bid)) from rfl,
        h] at he
      have he' := Option.some.inj he
      have hm : m = BucketModel.mk resp := congrArg Prod.fst he'.symm
      have hh : hd = BlockingBucket.mk bid := congrArg Prod.snd he'.symm
      subst hm; subst hh
      exact ⟨rfl, h⟩
  · intro xs hxs
    constructor
    · intro l hl
      apply awaiting_yield_buckets_get? xs l
      rw [show (Awaiting.buckets routes ty respL).2 =
        (match jLookup respL "buckets" with
         | some (JVal.jarr ys) => Awaiting.yield_buckets ys
         | _ => none) from rfl, hxs] at hl
      exact hl
    · intro l hl
      apply blocking_yield_buckets_get? xs l
      rw [show (Blocking.buckets routes ty respL).2 =
        (match jLookup respL "buckets" with
         | some (JVal.jarr ys) => Blocking.yield_buckets ys
         | _ => none) from rfl, hxs] at hl
      exact hl

/-- Witness for C10 at a concrete create response and a concrete one-bucket
list response. -/
theorem model_handle_consistency_witness :
    ((Awaiting.create_bucket routes0 payload0 bucket_entry0).2 =
        some (BucketModel.mk bucket_entry0, AwaitingBucket.mk (JVal.jstr "b1")) ∧
     (BucketModel.mk bucket_entry0 = BucketModel.mk bucket_entry0 ∧
      (BucketModel.mk bucket_entry0).bucket_id =
        some (AwaitingBucket.mk (JVal.jstr "b1")).bucket_id)) ∧
    (jLookup respL0 "buckets" = some (JVal.jarr [bucket_entry0]) ∧
     (Awaiting.buckets routes0 ["all"] respL0).2 =
        some [(BucketModel.mk bucket_entry0, AwaitingBucket.mk (JVal.jstr "b1"))] ∧
     [(BucketModel.mk bucket_entry0, AwaitingBucket.mk (JVal.jstr "b1"))].length =
        [bucket_entry0].length ∧
     ∃ bid, jLookup bucket_entry0 "bucketId" = some bid ∧
       [(BucketModel.mk bucket_entry0,
         AwaitingBucket.mk (JVal.jstr "b1"))].get? 0 =
         some (BucketModel.mk bucket_entry0, AwaitingBucket.mk bid)) := by
  refine ⟨⟨rfl, ?_⟩, rfl, rfl, ?_, ?_⟩
  · exact (model_handle_consistency routes0 payload0 bucket_entry0 ["all"]
      respL0).1 (BucketModel.mk bucket_entry0)
      (AwaitingBucket.mk (JVal.jstr "b1")) rfl
  · exact ((model_handle_consistency routes0 payload0 bucket_entry0 ["all"]
      respL0).2.2 [bucket_entry0] rfl).1
      [(BucketModel.mk bucket_entry0, AwaitingBucket.mk (JVal.jstr "b1"))] rfl
      |>.1
  · exact ((model_handle_consistency routes0 payload0 bucket_entry0 ["all"]
      respL0).2.2 [bucket_entry0] rfl).1
      [(BucketModel.mk bucket_entry0, AwaitingBucket.mk (JVal.jstr "b1"))] rfl
      |>.2 0 bucket_entry0 rfl

end Backblaze







